import Mathlib

/-!
Verification development for the `roof_calc` repository: a shallow embedding
of the roof-geometry and frame-derivation code (roof.py, sub_roof.py,
mixin.py, components.py, validators.py, utils.py) together with theorems
settling the specification claims.

Python floats are modelled by real numbers; a Python call that raises is
modelled by `Except PyError`.  Attribute lookup on an object that may lack
the attribute is modelled by `Option` fields read through `pyGetattr`.
-/

namespace RoofCalc

/-- Measurement units, from miscellenous.py `Unit` (CM, M, FT). -/
inductive UnitT where
  | cm
  | m
  | ft
  deriving DecidableEq

/-- The Python error kinds raised by the embedded code paths:
`InvalidDimensionsError` (validators.py), `AttributeError` (missing
attribute), `NotImplementedError`, and `ValueError` (math domain error). -/
inductive PyError where
  | invalidDimensionsError (msg : String)
  | attributeError (attr : String)
  | notImplementedError (msg : String)
  | valueError (msg : String)
  deriving DecidableEq

/-- utils.py `convert_to_cm(value, unit)`: CM is identity, M multiplies by
100, FT multiplies by 30.48.  roof.py `Roof._convert_to_cm` applies the same
factors. -/
noncomputable def convert_to_cm (value : ℝ) (u : UnitT) : ℝ :=
  match u with
  | .m => value * 100
  | .ft => value * 30.48
  | .cm => value

/-- validators.py `validate_positive(value, name)`: raises
`InvalidDimensionsError` when `value <= 0`, otherwise returns nothing. -/
noncomputable def validate_positive (value : ℝ) (name : String) : Except PyError Unit :=
  if value ≤ 0 then
    .error (.invalidDimensionsError (name ++ " must be a positive number."))
  else
    .ok ()

/-- Python `math.hypot(x, y)` = sqrt(x² + y²). -/
noncomputable def hypot (x y : ℝ) : ℝ := Real.sqrt (x ^ 2 + y ^ 2)

/-- Python `math.radians(d)` = d·π/180. -/
noncomputable def radians (d : ℝ) : ℝ := d * Real.pi / 180

/-- Attribute lookup: `getattr(obj, name)` on a field modelled as `Option`;
a missing attribute raises `AttributeError` naming the attribute (this is
also the behaviour of mixin.py `HipRoofMixin._get_attr`). -/
def pyGetattr (v : Option ℝ) (name : String) : Except PyError ℝ :=
  match v with
  | some x => .ok x
  | none => .error (.attributeError name)

/-!  ## Roof.trusses_count (roof.py lines 146-161)  -/

/-- roof.py `Roof.trusses_count(truss_spacing)`: validates the spacing
positive then returns `floor(building_length / truss_spacing) + 1`. -/
noncomputable def trusses_count (building_length truss_spacing : ℝ) :
    Except PyError ℤ := do
  _ ← validate_positive truss_spacing "truss_spacing"
  .ok (⌊building_length / truss_spacing⌋ + 1)

/-!  ## Roof.ridge_cover_count (roof.py lines 187-208)  -/

/-- roof.py `Roof.ridge_cover_count(cover_length)`: validates
`cover_length > 0`; returns 0 when the instance is a `FlatRoof`; otherwise
computes `ridge_length = building_length + 2 * roof_overhang` and returns
`ceil(ridge_length / cover_length)`.  `HipRoof` and `GableRoof` both
inherit this method unchanged. -/
noncomputable def ridge_cover_count (isFlatRoof : Bool)
    (building_length roof_overhang cover_length : ℝ) : Except PyError ℤ := do
  _ ← validate_positive cover_length "cover_length"
  if isFlatRoof then
    .ok 0
  else
    .ok ⌈(building_length + 2 * roof_overhang) / cover_length⌉

/-- Claim C7: for every roof and truss_spacing > 0, the truss count equals
floor(building_length / truss_spacing) + 1, and is at least 1 even when the
spacing exceeds the building length. -/
theorem trussesCount_floor_plus_one (L s : ℝ) (hL : 0 < L) (hs : 0 < s) :
    trusses_count L s = .ok (⌊L / s⌋ + 1) ∧ 1 ≤ ⌊L / s⌋ + 1 := by
  constructor
  · simp only [trusses_count, validate_positive, if_neg (not_le.mpr hs)]
    rfl
  · have h0 : (0 : ℝ) ≤ L / s := le_of_lt (div_pos hL hs)
    have h1 : 0 ≤ ⌊L / s⌋ := Int.floor_nonneg.mpr h0
    omega

/-- Witness for C7 at building_length 1000 and truss_spacing 2000 (spacing
exceeding the length). -/
theorem trussesCount_floor_plus_one_witness :
    trusses_count 1000 2000 = .ok (⌊(1000 : ℝ) / 2000⌋ + 1) ∧
      1 ≤ ⌊(1000 : ℝ) / 2000⌋ + 1 :=
  trussesCount_floor_plus_one 1000 2000 (by norm_num) (by norm_num)

/-- Claim C8, counterexample: a GableRoof with building_length 1000,
side_extension_length 30 and roof_overhang 60, with cover_length 100.  The
claim predicts `ceil((1000 + 2*30)/100) = 11` ridge covers; the code's
`ridge_cover_count` uses `roof_overhang`, giving
`ceil((1000 + 2*60)/100) = 12`. -/
theorem ridgeCoverCount_side_extension_counterexample :
    ridge_cover_count false 1000 60 100 ≠ .ok ⌈((1000 : ℝ) + 2 * 30) / 100⌉ := by
  have h1 : ridge_cover_count false 1000 60 100 = .ok 12 := by
    simp only [ridge_cover_count, validate_positive,
      if_neg (not_le.mpr (by norm_num : (0 : ℝ) < 100))]
    have hc : ⌈((1000 : ℝ) + 2 * 60) / 100⌉ = (12 : ℤ) := by
      rw [Int.ceil_eq_iff] <;> norm_num
    rw [hc]
    rfl
  have h2 : ⌈((1000 : ℝ) + 2 * 30) / 100⌉ = (11 : ℤ) := by
    rw [Int.ceil_eq_iff] <;> norm_num
  rw [h1, h2]
  intro h
  exact absurd (Except.ok.inj h) (by norm_num)

/-- Claim C8, amended: for every cover_length > 0, `ridge_cover_count`
returns 0 for a FlatRoof and `ceil((building_length + 2*roof_overhang) /
cover_length)` for every other roof: the GableRoof ridge length for covers
uses `roof_overhang` (not `side_extension_length`), and HipRoof inherits
the same computed formula (it is not an unimplemented placeholder). -/
theorem ridgeCoverCount_uses_overhang (L O c : ℝ) (hc : 0 < c) :
    ridge_cover_count true L O c = .ok 0 ∧
      ridge_cover_count false L O c = .ok ⌈(L + 2 * O) / c⌉ := by
  refine ⟨?_, ?_⟩ <;>
    simp only [ridge_cover_count, validate_positive, if_neg (not_le.mpr hc)] <;>
    rfl

/-- Witness for the amended C8 at a GableRoof-shaped input (length 1000,
overhang 60) and a FlatRoof, with the default cover_length 300. -/
theorem ridgeCoverCount_uses_overhang_witness :
    ridge_cover_count true 1000 60 300 = .ok 0 ∧
      ridge_cover_count false 1000 60 300 = .ok ⌈((1000 : ℝ) + 2 * 60) / 300⌉ :=
  ridgeCoverCount_uses_overhang 1000 60 300 (by norm_num)

/-!  ## Constructor sequencing (roof.py `Roof.__init__` and subclasses)

A Python instance starts with an empty `__dict__`; attributes exist only
after assignment.  `PyRoofState` models the instance attributes as `Option`
fields, all initially `none`.  -/

/-- A sub-roof object as seen from a containing roof's constructor: only its
`parent` back-reference matters here, recorded as the class name of the
object it points to (`none` models Python `None`). -/
structure SubStub where
  parent_class : Option String
  deriving DecidableEq

/-- Instance attributes of a `Roof` (and its subclasses), each `none` until
the constructor assigns it. -/
structure PyRoofState where
  unit : Option UnitT := none
  building_length : Option ℝ := none
  building_width : Option ℝ := none
  side_extension_length : Option ℝ := none
  height_factor : Option ℝ := none
  roof_overhang : Option ℝ := none
  flat_roof_rise : Option ℝ := none
  sub_roofs_attached : List SubStub := []

/-- roof.py `Roof._convert_to_cm(value)`: reads `self.unit`; on an instance
whose `unit` attribute has not been assigned yet this raises
`AttributeError("unit")`. -/
noncomputable def self_convert_to_cm (self : PyRoofState) (value : ℝ) :
    Except PyError ℝ :=
  match self.unit with
  | none => .error (.attributeError "unit")
  | some u => .ok (convert_to_cm value u)

/-- roof.py `Roof.__init__` (lines 61-87): validates length and width,
assigns `self.unit`, converts and assigns the dimensions, and stores
`sub_roofs_attached` verbatim — it never assigns itself as the parent of
the attached sub-roofs. -/
noncomputable def roofBaseInit (self : PyRoofState) (building_length building_width : ℝ)
    (subs : List SubStub) (u : UnitT) : Except PyError PyRoofState := do
  _ ← validate_positive building_length "building_length"
  _ ← validate_positive building_width "building_width"
  let self := { self with unit := some u }
  let lcm ← self_convert_to_cm self building_length
  let wcm ← self_convert_to_cm self building_width
  .ok { self with
        building_length := some lcm
        building_width := some wcm
        sub_roofs_attached := subs }

/-- roof.py `HipRoof.__init__` (lines 268-300): calls the base constructor
first (so `self.unit` is assigned), then validates and converts the
overhang. -/
noncomputable def hipRoofInit (building_length building_width roof_overhang hf : ℝ)
    (subs : List SubStub) (u : UnitT) : Except PyError PyRoofState := do
  let self ← roofBaseInit {} building_length building_width subs u
  _ ← validate_positive roof_overhang "roof_overhang"
  _ ← validate_positive hf "height_ratio"
  let ocm ← self_convert_to_cm self roof_overhang
  .ok { self with roof_overhang := some ocm, height_factor := some hf }

/-- roof.py `GableRoof.__init__` (lines 354-389): validates its own
parameters, then converts `side_extension_length` via `self._convert_to_cm`
BEFORE calling the base constructor — at that point `self.unit` has never
been assigned. -/
noncomputable def gableRoofInit
    (building_length building_width side_extension_length hf roof_overhang : ℝ)
    (subs : List SubStub) (u : UnitT) : Except PyError PyRoofState := do
  let self : PyRoofState := {}
  _ ← validate_positive side_extension_length "side_extension_length"
  _ ← validate_positive hf "height_ratio"
  _ ← validate_positive roof_overhang "roof_overhang"
  let ecm ← self_convert_to_cm self side_extension_length
  let self := { self with side_extension_length := some ecm, height_factor := some hf }
  let ocm ← self_convert_to_cm self roof_overhang
  let self := { self with roof_overhang := some ocm }
  roofBaseInit self building_length building_width subs u

/-- roof.py `FlatRoof.__init__` (lines 425-456): validates its own
parameters, then converts `flat_roof_rise` via `self._convert_to_cm` BEFORE
calling the base constructor — at that point `self.unit` has never been
assigned. -/
noncomputable def flatRoofInit
    (building_length building_width flat_roof_rise roof_overhang : ℝ)
    (subs : List SubStub) (u : UnitT) : Except PyError PyRoofState := do
  let self : PyRoofState := {}
  _ ← validate_positive flat_roof_rise "flat_roof_rise"
  _ ← validate_positive roof_overhang "roof_overhang"
  let rcm ← self_convert_to_cm self flat_roof_rise
  let self := { self with flat_roof_rise := some rcm }
  let ocm ← self_convert_to_cm self roof_overhang
  let self := { self with roof_overhang := some ocm }
  roofBaseInit self building_length building_width subs u

/-- Claim C2: for every choice of positive arguments and any unit, both the
GableRoof and the FlatRoof constructor raise `AttributeError("unit")`:
they call `_convert_to_cm` (which reads `self.unit`) before the base
constructor assigns the `unit` field, so no instance is ever produced. -/
theorem gable_flat_init_attribute_error
    (L W ext hf O rise : ℝ) (subs : List SubStub) (u : UnitT)
    (hL : 0 < L) (hW : 0 < W) (hext : 0 < ext) (hhf : 0 < hf)
    (hO : 0 < O) (hrise : 0 < rise) :
    gableRoofInit L W ext hf O subs u = .error (.attributeError "unit") ∧
      flatRoofInit L W rise O subs u = .error (.attributeError "unit") := by
  constructor
  · simp only [gableRoofInit, validate_positive, if_neg (not_le.mpr hext),
      if_neg (not_le.mpr hhf), if_neg (not_le.mpr hO)]
    rfl
  · simp only [flatRoofInit, validate_positive, if_neg (not_le.mpr hrise),
      if_neg (not_le.mpr hO)]
    rfl

/-- Witness for C2: GableRoof(1000, 600, side_extension_length=30,
height_ratio=3, roof_overhang=60) and FlatRoof(1000, 600,
flat_roof_rise=10, roof_overhang=60) in centimeters. -/
theorem gable_flat_init_attribute_error_witness :
    gableRoofInit 1000 600 30 3 60 [] .cm = .error (.attributeError "unit") ∧
      flatRoofInit 1000 600 10 60 [] .cm = .error (.attributeError "unit") :=
  gable_flat_init_attribute_error 1000 600 30 3 60 10 [] .cm
    (by norm_num) (by norm_num) (by norm_num) (by norm_num) (by norm_num) (by norm_num)

/-!  ## HipRoof geometry (roof.py lines 258-349)  -/

/-- roof.py `HipRoof.roof_height` (property): `building_width / height_ratio`
(the constructor parameter is named `height_ratio` in the source). -/
noncomputable def hipRoofHeight (W hf : ℝ) : ℝ := W / hf

/-- roof.py `HipRoof.hip_rafter_length` (property, lines 320-327, overriding
the mixin): `sqrt(roof_height² + (building_width/2)²)`. -/
noncomputable def hip_rafter_length (W hf : ℝ) : ℝ :=
  Real.sqrt (hipRoofHeight W hf ^ 2 + (W / 2) ^ 2)

/-- roof.py `Roof.__roof_diagonal_height` (lines 104-122):
`hypot(roof_height, roof_half_span) + roof_overhang`, where
`roof_half_span = 0.5 * building_width`. -/
noncomputable def roof_diagonal_height (roof_height half_span roof_overhang : ℝ) : ℝ :=
  hypot roof_height half_span + roof_overhang

/-- The slope height used inside `HipRoof.roof_area`:
`self._get_roof_diagonal_height()` for a HipRoof. -/
noncomputable def hipSlopeHeight (W hf O : ℝ) : ℝ :=
  roof_diagonal_height (hipRoofHeight W hf) (W / 2) O

/-- The radicand of the `math.sqrt` call in `HipRoof.roof_area` (line 336):
`hip_rafter_length² - slope_height²`.  Python's `math.sqrt` raises
`ValueError("math domain error")` when this is negative. -/
noncomputable def hipSqrtRadicand (W hf O : ℝ) : ℝ :=
  hip_rafter_length W hf ^ 2 - hipSlopeHeight W hf O ^ 2

/-- roof.py `HipRoof.roof_area` (lines 329-349): computes
`first_trapezium_triangle_base_length = sqrt(hip_rafter_length² -
slope_height²)` (raising `ValueError` when the radicand is negative, as
Python's `math.sqrt` does), then `ridge_length = L - W`,
`facial_length = 2*base + ridge_length`,
`trapezoid_area = (ridge_length + facial_length) * slope_height`,
`triangle_area = (base * slope_height) * 2`, returning their sum. -/
noncomputable def hipRoofArea (L W O hf : ℝ) : Except PyError ℝ :=
  if hipSqrtRadicand W hf O < 0 then
    .error (.valueError "math domain error")
  else
    let b := Real.sqrt (hipSqrtRadicand W hf O)
    let ridge_length := L - W
    let facial_length := 2 * b + ridge_length
    let trapezoid_area := (ridge_length + facial_length) * hipSlopeHeight W hf O
    let triangle_area := (b * hipSlopeHeight W hf O) * 2
    .ok (trapezoid_area + triangle_area)

/-- Claim C1: on every valid HipRoof (all constructor parameters positive,
so in particular roof_overhang > 0), `roof_area()` raises
`ValueError("math domain error")` instead of returning the specified
trapezoids-plus-triangles value: the radicand `hip_rafter_length² -
slope_height²` is always negative because `slope_height =
hip_rafter_length + roof_overhang`. -/
theorem hipRoofArea_raises_math_domain_error (L W O hf : ℝ)
    (hL : 0 < L) (hW : 0 < W) (hO : 0 < O) (hhf : 0 < hf) :
    hipRoofArea L W O hf = .error (.valueError "math domain error") := by
  have hrad : hipSqrtRadicand W hf O < 0 := by
    have hnn : 0 ≤ hip_rafter_length W hf := Real.sqrt_nonneg _
    have hslope : hipSlopeHeight W hf O = hip_rafter_length W hf + O := by
      simp only [hipSlopeHeight, roof_diagonal_height, hypot, hip_rafter_length]
    simp only [hipSqrtRadicand, hslope]
    nlinarith
  simp only [hipRoofArea, if_pos hrad]

/-- Witness for C1: HipRoof(1000, 600, roof_overhang=60, height_ratio=3) in
centimeters — the concrete scenario of the spec. -/
theorem hipRoofArea_raises_math_domain_error_witness :
    hipRoofArea 1000 600 60 3 = .error (.valueError "math domain error") :=
  hipRoofArea_raises_math_domain_error 1000 600 60 3
    (by norm_num) (by norm_num) (by norm_num) (by norm_num)

/-!  ## FlatRoof.roof_area (roof.py lines 467-480)  -/

/-- roof.py `FlatRoof.roof_area` slope length:
`math.hypot(building_width + 2 * roof_overhang, flat_roof_rise)` — the
overhang is doubled and added to the width INSIDE the hypot. -/
noncomputable def flatRoofSlopeLength (W rise O : ℝ) : ℝ :=
  hypot (W + 2 * O) rise

/-- roof.py `FlatRoof.roof_area`: `slope_length * building_length`. -/
noncomputable def flatRoofArea (L W rise O : ℝ) : ℝ :=
  flatRoofSlopeLength W rise O * L

/-- The slope length as the claim (spec §4.1) words it:
`hypot(W, flat_roof_rise) + O`, the overhang added to the hypotenuse. -/
noncomputable def claimedFlatSlopeLength (W rise O : ℝ) : ℝ :=
  hypot W rise + O

/-- Claim C4, counterexample: FlatRoof state with building_length 1000,
building_width 300, flat_roof_rise 400, roof_overhang 60.  The code returns
`hypot(300 + 120, 400) * 1000 = 580000`; the claim's formula
`(hypot(300, 400) + 60) * 1000 = 560000`. -/
theorem flatRoofArea_spec_formula_counterexample :
    flatRoofArea 1000 300 400 60 ≠ claimedFlatSlopeLength 300 400 60 * 1000 := by
  have h1 : flatRoofArea 1000 300 400 60 = 580000 := by
    simp only [flatRoofArea, flatRoofSlopeLength, hypot]
    rw [show (300 : ℝ) + 2 * 60 = 420 by norm_num,
      show (420 : ℝ) ^ 2 + 400 ^ 2 = 580 ^ 2 by norm_num,
      Real.sqrt_sq (by norm_num : (0 : ℝ) ≤ 580)]
    norm_num
  have h2 : claimedFlatSlopeLength 300 400 60 * 1000 = 560000 := by
    simp only [claimedFlatSlopeLength, hypot]
    rw [show (300 : ℝ) ^ 2 + 400 ^ 2 = 500 ^ 2 by norm_num,
      Real.sqrt_sq (by norm_num : (0 : ℝ) ≤ 500)]
    norm_num
  rw [h1, h2]
  norm_num

/-- Claim C4, amended: `FlatRoof.roof_area()` returns `slope_length * L`
with `slope_length = hypot(W + 2*O, flat_roof_rise)` — the overhang is
doubled and added to the width inside the hypot, not added to the
hypotenuse.  The second conjunct checks the repository's own unit test
`test_flat_roof_zero_rise`: FlatRoof(1000, 600, flat_roof_rise→0,
overhang 60) has area 1000·(600+2·60) = 720000. -/
theorem flatRoofArea_overhang_inside_hypot (L W rise O : ℝ) :
    flatRoofArea L W rise O = Real.sqrt ((W + 2 * O) ^ 2 + rise ^ 2) * L ∧
      flatRoofArea 1000 600 0 60 = 720000 := by
  constructor
  · simp only [flatRoofArea, flatRoofSlopeLength, hypot]
  · simp only [flatRoofArea, flatRoofSlopeLength, hypot]
    rw [show (600 : ℝ) + 2 * 60 = 720 by norm_num,
      show (720 : ℝ) ^ 2 + 0 ^ 2 = 720 ^ 2 by norm_num,
      Real.sqrt_sq (by norm_num : (0 : ℝ) ≤ 720)]
    norm_num

/-!  ## HipRoofMixin (mixin.py)  -/

/-- A host entity for `HipRoofMixin`: the three numeric accessors the mixin
reads through `_get_attr`, each possibly absent. -/
structure HipMixinHost where
  roof_half_span : Option ℝ
  roof_overhang : Option ℝ
  roof_height : Option ℝ

/-- mixin.py `HipRoofMixin.corner_tiebeam_length`:
`hypot(half_span, half_span)`. -/
noncomputable def corner_tiebeam_length (h : HipMixinHost) : Except PyError ℝ := do
  let hs ← pyGetattr h.roof_half_span "roof_half_span"
  .ok (hypot hs hs)

/-- mixin.py `HipRoofMixin.hip_rafter_overhang`:
`hypot(overhang, overhang)`. -/
noncomputable def mixin_hip_rafter_overhang (h : HipMixinHost) : Except PyError ℝ := do
  let oh ← pyGetattr h.roof_overhang "roof_overhang"
  .ok (hypot oh oh)

/-- mixin.py `HipRoofMixin.hip_rafter_length` (lines 19-24): reads
`corner_tiebeam_length`, `roof_height` and `roof_overhang`, and returns
`hypot(tiebeam, height) + overhang` — the RAW overhang, not
`hip_rafter_overhang`. -/
noncomputable def mixin_hip_rafter_length (h : HipMixinHost) : Except PyError ℝ := do
  let tiebeam ← corner_tiebeam_length h
  let height ← pyGetattr h.roof_height "roof_height"
  let oh ← pyGetattr h.roof_overhang "roof_overhang"
  .ok (hypot tiebeam height + oh)

/-- Claim C9, counterexample: a host with roof_half_span 2, roof_overhang 1,
roof_height 1.  The code returns `hypot(hypot(2,2), 1) + 1 = 3 + 1 = 4`;
the claim's formula gives `hypot(hypot(2,2), 1) + hypot(1,1) = 3 + √2`. -/
theorem mixin_hipRafterLength_counterexample :
    mixin_hip_rafter_length ⟨some 2, some 1, some 1⟩ ≠
      .ok (hypot (hypot 2 2) 1 + hypot 1 1) := by
  have h8 : hypot (2 : ℝ) 2 = Real.sqrt 8 := by
    simp only [hypot]
    norm_num
  have h3 : hypot (Real.sqrt 8) 1 = 3 := by
    simp only [hypot]
    rw [Real.sq_sqrt (by norm_num : (0 : ℝ) ≤ 8)]
    rw [show (8 : ℝ) + 1 ^ 2 = 3 ^ 2 by norm_num,
      Real.sqrt_sq (by norm_num : (0 : ℝ) ≤ 3)]
  have hlhs0 : mixin_hip_rafter_length ⟨some 2, some 1, some 1⟩ =
      .ok (hypot (hypot 2 2) 1 + 1) := rfl
  have hlhs : mixin_hip_rafter_length ⟨some 2, some 1, some 1⟩ = .ok 4 := by
    rw [hlhs0, h8, h3]
    norm_num
  have hs2 : hypot (1 : ℝ) 1 = Real.sqrt 2 := by
    simp only [hypot]
    norm_num
  rw [hlhs, h8, h3, hs2]
  intro h
  have h4 : (4 : ℝ) = 3 + Real.sqrt 2 := Except.ok.inj h
  have h5 : Real.sqrt 2 = 1 := by linarith
  have hsq := Real.sq_sqrt (by norm_num : (0 : ℝ) ≤ 2)
  rw [h5] at hsq
  norm_num at hsq

/-- Claim C9, amended: for every host exposing the three required
accessors, `hip_rafter_length = hypot(corner_tiebeam_length, roof_height)
+ roof_overhang` — the raw overhang is added, not `hip_rafter_overhang`.
The accessor `hip_rafter_overhang = hypot(overhang, overhang)` itself and
`corner_tiebeam_length = hypot(half_span, half_span)` are as the claim
states, but `hip_rafter_length` does not use `hip_rafter_overhang`. -/
theorem mixin_hipRafterLength_raw_overhang (hs h O : ℝ) :
    mixin_hip_rafter_length ⟨some hs, some O, some h⟩ =
        .ok (hypot (hypot hs hs) h + O) ∧
      mixin_hip_rafter_overhang ⟨some hs, some O, some h⟩ = .ok (hypot O O) ∧
      corner_tiebeam_length ⟨some hs, some O, some h⟩ = .ok (hypot hs hs) :=
  ⟨rfl, rfl, rfl⟩

/-!  ## RoofFrame.__post_init__ (components.py lines 119-137)  -/

/-- The five accessors `RoofFrame.__post_init__` reads from its host roof,
each `Option` because the host class may not define it.  Per the source:
`Roof` subclasses define `roof_half_span` (roof.py line 224), `HipRoof`,
`GableRoof` and `FlatRoof` define `roof_overhang`; `HipRoof` and
`GableRoof` define `roof_height` but `FlatRoof` does not; no class in
roof.py defines `roof_pitch_ratio` or `slope_height` — only `SubRoof`
(sub_roof.py) has both. -/
structure FrameHostAttrs where
  roof_half_span : Option ℝ
  roof_overhang : Option ℝ
  roof_height : Option ℝ
  roof_pitch_rr : Option ℝ
  slope_height : Option ℝ

/-- The fields `RoofFrame.__post_init__` assigns on success. -/
structure RoofFrameState where
  truss_spacing : ℝ
  purlin_spacing : ℝ
  half_span : ℝ
  overhang : ℝ
  rise : ℝ
  pitch : ℝ
  slope_height : ℝ
  is_gable : Bool

/-- components.py `RoofFrame.__post_init__` (lines 127-137): validates the
two spacings, converts them to cm, then reads `roof.roof_half_span`,
`roof.roof_overhang`, `roof.roof_height`, `roof.roof_pitch_ratio`,
`roof.slope_height` in that order (each raising `AttributeError` if the
host lacks it), and finally computes `is_gable`. -/
noncomputable def roofFramePostInit (attrs : FrameHostAttrs) (isGableLike : Bool)
    (truss_spacing purlin_spacing : ℝ) (u : UnitT) :
    Except PyError RoofFrameState := do
  _ ← validate_positive truss_spacing "truss_spacing"
  _ ← validate_positive purlin_spacing "purlin_spacing"
  let ps := convert_to_cm purlin_spacing u
  let ts := convert_to_cm truss_spacing u
  let hs ← pyGetattr attrs.roof_half_span "roof_half_span"
  let oh ← pyGetattr attrs.roof_overhang "roof_overhang"
  let rise ← pyGetattr attrs.roof_height "roof_height"
  let pitch ← pyGetattr attrs.roof_pitch_rr "roof_pitch_ratio"
  let sh ← pyGetattr attrs.slope_height "slope_height"
  .ok ⟨ts, ps, hs, oh, rise, pitch, sh, isGableLike⟩

/-- The accessors a constructed HipRoof instance exposes to `RoofFrame`:
`roof_half_span = W/2`, `roof_overhang`, `roof_height = W/height_ratio`;
neither `roof_pitch_ratio` nor `slope_height` is defined on it. -/
noncomputable def hipRoofFrameAttrs (W O hf : ℝ) : FrameHostAttrs :=
  ⟨some (W / 2), some O, some (hipRoofHeight W hf), none, none⟩

/-- The accessors a GableRoof instance would expose to `RoofFrame` (same
three as HipRoof; no `roof_pitch_ratio`, no `slope_height`). -/
noncomputable def gableRoofFrameAttrs (W O hf : ℝ) : FrameHostAttrs :=
  ⟨some (W / 2), some O, some (W / hf), none, none⟩

/-- The accessors a FlatRoof instance would expose to `RoofFrame`: it has
`roof_half_span` and `roof_overhang` but defines no `roof_height`,
`roof_pitch_ratio` or `slope_height`. -/
noncomputable def flatRoofFrameAttrs (W O : ℝ) : FrameHostAttrs :=
  ⟨some (W / 2), some O, none, none, none⟩

/-- The accessors a SubRoof with a functioning parent chain exposes to
`RoofFrame` (sub_roof.py): `roof_half_span = section_length/2`,
`roof_overhang` (the parent's, value O), `roof_height = pitch_rise_run *
half_span`, `roof_pitch_ratio` (assigned in `__post_init__`),
`slope_height = hypot(rise, width/2)` — all five present, where the parent's
pitch angle in degrees is θ. -/
noncomputable def subRoofFrameAttrs (sl w θ O : ℝ) : FrameHostAttrs :=
  ⟨some (sl / 2), some O,
    some (Real.tan (radians θ) * (sl / 2)),
    some (Real.tan (radians θ)),
    some (hypot (Real.tan (radians θ) * (sl / 2)) (w / 2))⟩

/-- Claim C3: for every main-roof instance (HipRoof, GableRoof or FlatRoof)
and positive spacings, `RoofFrame.__post_init__` raises `AttributeError`:
on HipRoof and GableRoof at the `roof.roof_pitch_ratio` read, on FlatRoof
already at the `roof.roof_height` read; over a SubRoof host (the only host
defining `roof_pitch_ratio` and `slope_height`) construction succeeds. -/
theorem roofFrame_main_roof_attribute_error
    (W O hf rise sl w θ ts ps : ℝ) (u : UnitT) (hts : 0 < ts) (hps : 0 < ps) :
    roofFramePostInit (hipRoofFrameAttrs W O hf) false ts ps u =
        .error (.attributeError "roof_pitch_ratio") ∧
      roofFramePostInit (gableRoofFrameAttrs W O hf) true ts ps u =
        .error (.attributeError "roof_pitch_ratio") ∧
      roofFramePostInit (flatRoofFrameAttrs W O) true ts ps u =
        .error (.attributeError "roof_height") ∧
      roofFramePostInit (subRoofFrameAttrs sl w θ O) false ts ps u =
        .ok ⟨convert_to_cm ts u, convert_to_cm ps u, sl / 2, O,
          Real.tan (radians θ) * (sl / 2), Real.tan (radians θ),
          hypot (Real.tan (radians θ) * (sl / 2)) (w / 2), false⟩ := by
  refine ⟨?_, ?_, ?_, ?_⟩ <;>
    · simp only [roofFramePostInit, validate_positive, if_neg (not_le.mpr hts),
        if_neg (not_le.mpr hps)]
      rfl

/-- Witness for C3 at HipRoof(1000, 600, overhang 60, height_ratio 3),
GableRoof and FlatRoof of the same footprint, a SubRoof(section_length 200,
width 150) under a parent of pitch angle 30°, and spacings 150 and 54 cm. -/
theorem roofFrame_main_roof_attribute_error_witness :
    roofFramePostInit (hipRoofFrameAttrs 600 60 3) false 150 54 .cm =
        .error (.attributeError "roof_pitch_ratio") ∧
      roofFramePostInit (gableRoofFrameAttrs 600 60 3) true 150 54 .cm =
        .error (.attributeError "roof_pitch_ratio") ∧
      roofFramePostInit (flatRoofFrameAttrs 600 60) true 150 54 .cm =
        .error (.attributeError "roof_height") ∧
      roofFramePostInit (subRoofFrameAttrs 200 150 30 60) false 150 54 .cm =
        .ok ⟨convert_to_cm 150 .cm, convert_to_cm 54 .cm, 200 / 2, 60,
          Real.tan (radians 30) * (200 / 2), Real.tan (radians 30),
          hypot (Real.tan (radians 30) * (200 / 2)) (150 / 2), false⟩ :=
  roofFrame_main_roof_attribute_error 600 60 3 10 200 150 30 150 54 .cm
    (by norm_num) (by norm_num)

/-!  ## SubRoof (sub_roof.py)

`SubRoof.pitch_rise_run` reads `self.parent.roof_pitch_angle_degrees`.
A parent is modelled by `ParentRef`: Python `None`, a root Roof (HipRoof or
GableRoof), a FlatRoof, or another SubRoof object.  -/

/-- The object a `SubRoof.parent` reference can point to.  `rootParent θ`
is a HipRoof/GableRoof whose pitch-angle accessor yields θ degrees;
`flatParent θ` a FlatRoof likewise; `subParent` another SubRoof object;
`pyNone` the Python `None` default. -/
inductive ParentRef where
  | pyNone
  | rootParent (pitchAngleDeg : ℝ)
  | flatParent (pitchAngleDeg : ℝ)
  | subParent

/-- Modelled from the spec: `roof_pitch_angle_degrees` is referenced by
sub_roof.py but defined by no class under src/ — the spec (§4.1) places it
on the Roof contract, so a root Roof (Hip/Gable/Flat) is modelled as
exposing it with value θ.  `SubRoof` itself is fully present in
src/sub_roof.py and defines no such attribute, so on a SubRoof parent (or
on `None`) the lookup raises `AttributeError`. -/
noncomputable def parentPitchAngleDegrees : ParentRef → Except PyError ℝ
  | .rootParent θ => .ok θ
  | .flatParent θ => .ok θ
  | .pyNone => .error (.attributeError "roof_pitch_angle_degrees")
  | .subParent => .error (.attributeError "roof_pitch_angle_degrees")

/-- sub_roof.py `SubRoof.pitch_rise_run` (lines 50-54): reads the parent's
`roof_pitch_angle_degrees` at each call and returns
`tan(radians(roof_pitch))`. -/
noncomputable def subPitchRiseRun (parent : ParentRef) : Except PyError ℝ := do
  let θ ← parentPitchAngleDegrees parent
  .ok (Real.tan (radians θ))

/-- The instance fields of a constructed `SubRoof`: `section_length` and
`width` (cm) and the `roof_pitch_ratio` snapshot assigned once in
`__post_init__` (line 29), modelled as `stored_pitch_rr`. -/
structure SubRoofFields where
  section_length : ℝ
  width : ℝ
  stored_pitch_rr : ℝ

/-- sub_roof.py `SubRoof.slope_height` (lines 42-47): recomputes
`rise = self.pitch_rise_run * self.roof_half_span` from the parent's
CURRENT angle on every call (`roof_half_span = section_length / 2`), then
returns `hypot(rise, width / 2)`.  The stored `roof_pitch_ratio` is not
consulted. -/
noncomputable def sub_slope_height (st : SubRoofFields) (parent : ParentRef) :
    Except PyError ℝ := do
  let rr ← subPitchRiseRun parent
  .ok (hypot (rr * (st.section_length / 2)) (st.width / 2))

/-- sub_roof.py `SubRoof.roof_height` (lines 56-61):
`pitch_rise_run * roof_half_span`, read live from the parent. -/
noncomputable def sub_roof_height (st : SubRoofFields) (parent : ParentRef) :
    Except PyError ℝ := do
  let rr ← subPitchRiseRun parent
  .ok (rr * (st.section_length / 2))

/-!  ## Sub-roof trees and recursive areas (sub_roof.py `roof_area`,
roof.py `collective_roof_area`)  -/

mutual
/-- A sub-roof with its geometric data and its attached children.  Trees of
depth ≥ 2 can be assembled in the source by post-hoc attachment (as
test_roof.py does with `main_roof.sub_roofs_attached = [...]`). -/
inductive SubTree where
  | mk : ℝ → ℝ → SubForest → SubTree

/-- A list of attached sub-roofs. -/
inductive SubForest where
  | nil : SubForest
  | cons : SubTree → SubForest → SubForest
end

mutual
/-- sub_roof.py `SubRoof.roof_area` (lines 75-81): `2 * slope_height *
section_length` plus the sum of the children's `roof_area()`.  Each child's
`slope_height` reads ITS parent — this sub-roof, a `SubRoof` object — so
the children evaluate with `ParentRef.subParent`. -/
noncomputable def subTreeArea : ParentRef → SubTree → Except PyError ℝ
  | p, .mk sl w kids => do
      let rr ← subPitchRiseRun p
      let s := hypot (rr * (sl / 2)) (w / 2)
      let rest ← subForestArea .subParent kids
      .ok (2 * s * sl + rest)

/-- Sum of `roof_area()` over a list of sub-roofs, left to right. -/
noncomputable def subForestArea : ParentRef → SubForest → Except PyError ℝ
  | _, .nil => .ok 0
  | p, .cons t ts => do
      let a ← subTreeArea p t
      let r ← subForestArea p ts
      .ok (a + r)
end

/-- roof.py `Roof.collective_roof_area` (lines 242-247): `self.roof_area()`
(value `mainArea` when it returns) plus the sum of `roof_area()` over the
directly attached sub-roofs, whose parent accessor yields θ degrees. -/
noncomputable def collective_roof_area (mainArea θ : ℝ) (subs : SubForest) :
    Except PyError ℝ := do
  let t ← subForestArea (.rootParent θ) subs
  .ok (mainArea + t)

/-- Whether a sub-roof has no attached children. -/
def treeIsLeaf : SubTree → Bool
  | .mk _ _ .nil => true
  | .mk _ _ (.cons _ _) => false

/-- Whether every sub-roof in the list is a leaf (depth-1 attachment). -/
def allLeaves : SubForest → Bool
  | .nil => true
  | .cons t ts => treeIsLeaf t && allLeaves ts

/-- The value of a childless sub-roof's `roof_area()` under a parent whose
pitch angle is θ. -/
noncomputable def leafSubArea (θ sl w : ℝ) : ℝ :=
  2 * hypot (Real.tan (radians θ) * (sl / 2)) (w / 2) * sl

/-- Sum of `leafSubArea` over the top-level sub-roofs of a forest. -/
noncomputable def sumLeafAreas (θ : ℝ) : SubForest → ℝ
  | .nil => 0
  | .cons (.mk sl w _) ts => leafSubArea θ sl w + sumLeafAreas θ ts

/-- When every attached sub-roof is a leaf, the sum of their areas under a
root parent of angle θ evaluates to `sumLeafAreas`. -/
theorem subForestArea_leaves (θ : ℝ) : ∀ F : SubForest, allLeaves F = true →
    subForestArea (.rootParent θ) F = .ok (sumLeafAreas θ F)
  | .nil, _ => rfl
  | .cons (.mk sl w .nil) ts, h => by
    have hts : allLeaves ts = true := by
      simp [allLeaves, treeIsLeaf] at h
      exact h
    have ih := subForestArea_leaves θ ts hts
    have e1 : subForestArea (.rootParent θ) (.cons (.mk sl w .nil) ts) =
        Except.bind (subForestArea (.rootParent θ) ts)
          (fun r =>
            .ok ((2 * hypot (Real.tan (radians θ) * (sl / 2)) (w / 2) * sl + 0) + r)) :=
      rfl
    rw [e1, ih]
    show Except.ok _ = Except.ok _
    congr 1
    rw [sumLeafAreas, leafSubArea]
    ring
  | .cons (.mk sl w (.cons t ts2)) ts, h => by
    simp [allLeaves, treeIsLeaf] at h

/-- Claim C5, amended: a SubRoof's effective pitch IS read at evaluation
time from `parent.roof_pitch_angle_degrees` and so reflects the parent's
angle θ at the moment `slope_height`, `roof_height` or `roof_area` is
evaluated (the `roof_pitch_ratio` snapshot stored at construction is never
consulted — last conjunct); but only one level: the accessor exists (as the
spec models it) on a root Roof, while a SubRoof parent does not define it,
so there is no chaining. -/
theorem subRoof_pitch_live_read_one_level (st : SubRoofFields) (θ r1 r2 : ℝ) :
    sub_slope_height st (.rootParent θ) =
        .ok (hypot (Real.tan (radians θ) * (st.section_length / 2)) (st.width / 2)) ∧
      sub_roof_height st (.rootParent θ) =
        .ok (Real.tan (radians θ) * (st.section_length / 2)) ∧
      subTreeArea (.rootParent θ) (.mk st.section_length st.width .nil) =
        .ok (2 * hypot (Real.tan (radians θ) * (st.section_length / 2))
              (st.width / 2) * st.section_length + 0) ∧
      sub_slope_height { st with stored_pitch_rr := r1 } (.rootParent θ) =
        sub_slope_height { st with stored_pitch_rr := r2 } (.rootParent θ) :=
  ⟨rfl, rfl, rfl, rfl⟩

/-- Claim C5, counterexample: a SubRoof with section_length 200, width 150
whose parent is itself a SubRoof.  Evaluating `slope_height` raises
`AttributeError("roof_pitch_angle_degrees")` — the lookup does NOT chain
through the SubRoof parent up to the root Roof, because `SubRoof` defines
no `roof_pitch_angle_degrees`. -/
theorem subRoof_pitch_chain_counterexample :
    sub_slope_height ⟨200, 150, 1⟩ .subParent =
      .error (.attributeError "roof_pitch_angle_degrees") :=
  rfl

/-- Claim C6, amended: `collective_roof_area()` equals `roof_area()` (value
`m`) plus the sum of the directly attached sub-roofs' `roof_area()` — but
only attachment trees of depth 1 evaluate: when every attached sub-roof is
a leaf the total is `m + sumLeafAreas θ F`, and in general whenever the
recursive sum evaluates to `v` the collective area is `m + v`.  Deeper
trees raise `AttributeError` (see the counterexample). -/
theorem collectiveRoofArea_additive_depth_one (m θ : ℝ) (F : SubForest)
    (h : allLeaves F = true) :
    collective_roof_area m θ F = .ok (m + sumLeafAreas θ F) ∧
      (∀ v, subForestArea (.rootParent θ) F = .ok v →
        collective_roof_area m θ F = .ok (m + v)) := by
  have hb := subForestArea_leaves θ F h
  refine ⟨?_, ?_⟩
  · simp only [collective_roof_area, hb]
    rfl
  · intro v hv
    simp only [collective_roof_area, hv]
    rfl

/-- Witness for C6: a main roof of area 100 with one childless attached
sub-roof (section_length 200, width 150) under pitch angle 30°. -/
theorem collectiveRoofArea_additive_depth_one_witness :
    collective_roof_area 100 30 (.cons (.mk 200 150 .nil) .nil) =
        .ok (100 + sumLeafAreas 30 (.cons (.mk 200 150 .nil) .nil)) ∧
      (∀ v, subForestArea (.rootParent 30) (.cons (.mk 200 150 .nil) .nil) = .ok v →
        collective_roof_area 100 30 (.cons (.mk 200 150 .nil) .nil) = .ok (100 + v)) :=
  collectiveRoofArea_additive_depth_one 100 30 (.cons (.mk 200 150 .nil) .nil) rfl

/-- Claim C6, counterexample: a depth-2 attachment tree — one attached
sub-roof (200×150) which itself has an attached child (100×80).  The code's
`collective_roof_area()` does not return the recursive sum: the
grandchild's `slope_height` reads `roof_pitch_angle_degrees` on its
SubRoof parent, raising `AttributeError`. -/
theorem collectiveRoofArea_deep_tree_counterexample :
    collective_roof_area 100 30
        (.cons (.mk 200 150 (.cons (.mk 100 80 .nil) .nil)) .nil) =
      .error (.attributeError "roof_pitch_angle_degrees") :=
  rfl

/-!  ## SubRoof.__post_init__ (sub_roof.py lines 23-36)  -/

/-- The check `self.parent.__class__.__name__ == "FlatRoof"`. -/
def parentIsFlatClass : ParentRef → Bool
  | .flatParent _ => true
  | _ => false

/-- sub_roof.py `SubRoof.__post_init__`: sets `self._length = self.width`,
validates `section_length` and `width`, converts both to cm, assigns
`self.roof_pitch_ratio = self.pitch_rise_run` (reading
`parent.roof_pitch_angle_degrees` — this is where a `None` or SubRoof
parent raises `AttributeError`), stamps itself onto its own children, and
finally raises `NotImplementedError` when the parent's class is
`FlatRoof`. -/
noncomputable def subRoofInit (section_length width : ℝ) (u : UnitT)
    (parent : ParentRef) : Except PyError SubRoofFields := do
  _ ← validate_positive section_length "section_length"
  _ ← validate_positive width "width"
  let slCm := convert_to_cm section_length u
  let wCm := convert_to_cm width u
  let rr ← subPitchRiseRun parent
  if parentIsFlatClass parent then
    .error (.notImplementedError "Sub roofs on flat roof are not supported")
  else
    .ok ⟨slCm, wCm, rr⟩

/-- Whether a constructor outcome is a `NotImplementedError` (the
"unsupported operation" kind). -/
def exceptIsNotImplemented : Except PyError PyRoofState → Bool
  | .error (.notImplementedError _) => true
  | _ => false

/-- Claim C10, amended: attaching a SubRoof to a FlatRoof fails at
construction ONLY on the direct-parent path: `SubRoof(...,
parent=flat_roof)` raises `NotImplementedError` (given the spec-modelled
pitch accessor on the parent; with no parent at all the earlier pitch
lookup already raises `AttributeError`).  On the list path the containing
constructor never stamps the parent: `FlatRoof(...,
sub_roofs_attached=[...])` fails with `AttributeError("unit")` for an
unrelated reason, and a successful containing constructor (HipRoof) stores
the list verbatim, leaving every sub-roof's `parent` untouched, so no
flat-parent check ever runs on that path. -/
theorem subRoof_flat_parent_paths (sl w θ L W rise O hf : ℝ) (u : UnitT)
    (subs : List SubStub) (hsl : 0 < sl) (hw : 0 < w) (hL : 0 < L) (hW : 0 < W)
    (hrise : 0 < rise) (hO : 0 < O) (hhf : 0 < hf) :
    subRoofInit sl w u (.flatParent θ) =
        .error (.notImplementedError "Sub roofs on flat roof are not supported") ∧
      subRoofInit sl w u .pyNone =
        .error (.attributeError "roof_pitch_angle_degrees") ∧
      flatRoofInit L W rise O subs u = .error (.attributeError "unit") ∧
      ∃ st, hipRoofInit L W O hf subs u = .ok st ∧ st.sub_roofs_attached = subs := by
  refine ⟨?_, ?_, ?_, ?_⟩
  · simp only [subRoofInit, validate_positive, if_neg (not_le.mpr hsl),
      if_neg (not_le.mpr hw)]
    rfl
  · simp only [subRoofInit, validate_positive, if_neg (not_le.mpr hsl),
      if_neg (not_le.mpr hw)]
    rfl
  · simp only [flatRoofInit, validate_positive, if_neg (not_le.mpr hrise),
      if_neg (not_le.mpr hO)]
    rfl
  · refine ⟨{ unit := some u
              building_length := some (convert_to_cm L u)
              building_width := some (convert_to_cm W u)
              height_factor := some hf
              roof_overhang := some (convert_to_cm O u)
              sub_roofs_attached := subs }, ?_, rfl⟩
    simp only [hipRoofInit, roofBaseInit, validate_positive,
      if_neg (not_le.mpr hL), if_neg (not_le.mpr hW), if_neg (not_le.mpr hO),
      if_neg (not_le.mpr hhf)]
    rfl

/-- Witness for the amended C10: SubRoof(section_length 200, width 150)
against a FlatRoof parent of pitch angle 2°, and FlatRoof(1000, 600,
rise 10, overhang 60) / HipRoof(1000, 600, overhang 60, height_ratio 3)
receiving one attached sub-roof stub. -/
theorem subRoof_flat_parent_paths_witness :
    subRoofInit 200 150 .cm (.flatParent 2) =
        .error (.notImplementedError "Sub roofs on flat roof are not supported") ∧
      subRoofInit 200 150 .cm .pyNone =
        .error (.attributeError "roof_pitch_angle_degrees") ∧
      flatRoofInit 1000 600 10 60 [⟨none⟩] .cm = .error (.attributeError "unit") ∧
      ∃ st, hipRoofInit 1000 600 60 3 [⟨none⟩] .cm = .ok st ∧
        st.sub_roofs_attached = [⟨none⟩] :=
  subRoof_flat_parent_paths 200 150 2 1000 600 10 60 3 .cm [⟨none⟩]
    (by norm_num) (by norm_num) (by norm_num) (by norm_num) (by norm_num)
    (by norm_num) (by norm_num)

/-- Claim C10, counterexample: passing a sub-roof in
`FlatRoof(1000, 600, flat_roof_rise=10, roof_overhang=60,
sub_roofs_attached=[s])` does NOT raise the unsupported-operation error the
claim requires on this attachment path: the constructor fails with
`AttributeError("unit")` (the C2 bug) before the sub-roof list is even
stored, and no parent is ever stamped onto the sub-roof. -/
theorem subRoof_flat_parent_list_counterexample :
    flatRoofInit 1000 600 10 60 [⟨none⟩] .cm = .error (.attributeError "unit") ∧
      exceptIsNotImplemented (flatRoofInit 1000 600 10 60 [⟨none⟩] .cm) = false := by
  have h : flatRoofInit 1000 600 10 60 [⟨none⟩] .cm =
      .error (.attributeError "unit") := by
    simp only [flatRoofInit, validate_positive,
      if_neg (not_le.mpr (by norm_num : (0 : ℝ) < 10)),
      if_neg (not_le.mpr (by norm_num : (0 : ℝ) < 60))]
    rfl
  exact ⟨h, by rw [h]; rfl⟩

end RoofCalc
